import Mathlib

/-!
# Verification of the chat-widget core logic

Shallow embedding of the two core components of the widget
(`src/scripts/script.js`, with byte-identical copies of the same functions in
`src/scripts/prosper_pharmacy.js` and `src/unnamed/part_000`):

* the response normalizer (`normalize`, `extractGeminiText`),
* the transport (`callApi`),
* the conversation history list maintained by `send`,
* the keyboard/viewport occlusion tracker (`writeKb`, `occludedPx`,
  `kbLatchUpdate`, `kbOnBlur` and the grace timer).

JavaScript values are modelled by the inductive type `JVal`.  Numbers are
modelled as integers (the payloads in question carry no fractional numbers;
viewport pixel arithmetic, which can be fractional, is modelled separately
over `ℚ`).  JS property access throws a TypeError exactly when the receiver
is `null`/`undefined`; fallible computations live in `Except String`.
-/

namespace Widget

/-- Model of a JavaScript/JSON value.  `undefined` is JS `undefined` (never part
of a JSON document, but produced by missing-property access). -/
inductive JVal where
  | null
  | undefined
  | bool (b : Bool)
  | num (i : Int)
  | str (s : String)
  | arr (elems : List JVal)
  | obj (fields : List (String × JVal))
deriving Repr

/-- JS truthiness: `null`, `undefined`, `false`, `0`, `""` are falsy;
objects and arrays are always truthy. -/
def truthy : JVal → Bool
  | .null => false
  | .undefined => false
  | .bool b => b
  | .num i => i != 0
  | .str s => s != ""
  | .arr _ => true
  | .obj _ => true

/-- `a || b` in JS. -/
def jsOr (a b : JVal) : JVal := if truthy a then a else b

/-- Receiver is `null` or `undefined` (property access on it throws). -/
def nullish : JVal → Bool
  | .null => true
  | .undefined => true
  | _ => false

/-- JS object-literal / JSON field lookup: the *last* binding of a key wins;
a missing key reads as `undefined`. -/
def lookupLast (fs : List (String × JVal)) (k : String) : JVal :=
  (fs.foldl (fun acc p => if p.1 = k then some p.2 else acc) none).getD .undefined

/-- Named-property access `v.k` on a non-nullish receiver (total: primitives
and arrays have none of the names the widget reads, so they give
`undefined`). Access on a nullish receiver is handled at the call sites,
where the source can actually throw. -/
def propD : JVal → String → JVal
  | .obj fs, k => lookupLast fs k
  | _, _ => .undefined

/-- Optional chaining `v?.k`: `undefined` on a nullish receiver. -/
def optChain (v : JVal) (k : String) : JVal :=
  if nullish v then .undefined else propD v k

/-- Index access `v[i]` on a non-nullish receiver: array element, single
character of a string, `undefined` otherwise. -/
def idxD : JVal → Nat → JVal
  | .arr xs, i => xs.getD i .undefined
  | .str s, i =>
      match s.toList.get? i with
      | some c => .str (String.singleton c)
      | none => .undefined
  | _, _ => .undefined

/-- Model of JS `String.prototype.trim`: strip whitespace from both ends. -/
def jsTrim (s : String) : String :=
  ⟨((s.toList.dropWhile Char.isWhitespace).reverse.dropWhile
      Char.isWhitespace).reverse⟩

/-- Model of JS `String.prototype.toLowerCase` (ASCII case map). -/
def jsToLower (s : String) : String := ⟨s.toList.map Char.toLower⟩

mutual
/-- JS string coercion (`String(v)` / template literal).  Arrays stringify as
their elements joined by commas with nullish elements blank, objects as
`"[object Object]"`. -/
def jsToString : JVal → String
  | .null => "null"
  | .undefined => "undefined"
  | .bool b => if b then "true" else "false"
  | .num i => toString i
  | .str s => s
  | .arr xs => String.intercalate "," (jsJoinElems xs)
  | .obj _ => "[object Object]"

/-- Element coercion used by `Array.prototype.join`. -/
def jsJoinElems : List JVal → List String
  | [] => []
  | v :: vs =>
      (match v with
       | .null => ""
       | .undefined => ""
       | v' => jsToString v') :: jsJoinElems vs
end

/-- `extractGeminiText` (src/scripts/script.js:67-71):
`const cand = (obj?.candidates || [])[0] || {};`
`const parts = cand?.content?.parts || [];`
`return parts.map(p => p?.text || '').join('').trim();`
The only way this can throw is `parts.map` when `parts` is truthy but not an
array; every property access is optional-chained or guarded by `|| []`. -/
def extractGeminiText (obj : JVal) : Except String JVal :=
  let cand := jsOr (idxD (jsOr (optChain obj "candidates") (.arr [])) 0) (.obj [])
  let parts := jsOr (optChain (optChain cand "content") "parts") (.arr [])
  match parts with
  | .arr xs =>
      .ok (.str (jsTrim (String.join
        (jsJoinElems (xs.map fun p => jsOr (optChain p "text") (.str ""))))))
  | _ => .error "TypeError: parts.map is not a function"

/-- Step 1 of `normalize`: `if (Array.isArray(data)) data = data[0] || {};` -/
def unwrapData (data0 : JVal) : JVal :=
  match data0 with
  | .arr xs => jsOr (xs.getD 0 .undefined) (.obj [])
  | _ => data0

/-- `const body = data.data || data;` -/
def bodyOf (data : JVal) : JVal := jsOr (propD data "data") data

/-- The initial `||`-cascade of the `message` computation:
`body.answer || body.response || body.message || body.output_text ||`
`body.text || body.content || ''`. -/
def firstSix (body : JVal) : JVal :=
  jsOr (propD body "answer") (jsOr (propD body "response")
    (jsOr (propD body "message") (jsOr (propD body "output_text")
    (jsOr (propD body "text") (jsOr (propD body "content") (.str ""))))))

/-- The three `message` lines of `normalize` (src/scripts/script.js:105-107):
`let message = body.answer || ... || body.content || '';`
`if (!message && body.raw) message = extractGeminiText(body.raw);`
`if (!message && data.candidates) message = extractGeminiText(data);`
`data` and `body` are non-nullish here (checked by the caller), so the only
throw points are the two `extractGeminiText` calls; a thrown TypeError
(`Except.error`) propagates out through the `match`es. -/
def messageOf (data body : JVal) : Except String JVal :=
  match (if !truthy (firstSix body) && truthy (propD body "raw") then
      extractGeminiText (propD body "raw")
    else .ok (firstSix body)) with
  | .error e => .error e
  | .ok m1 =>
      if !truthy m1 && truthy (propD data "candidates") then
        extractGeminiText data
      else .ok m1

/-- The `meta` record built by `normalize`. -/
structure NMeta where
  clinic_url : JVal
  clinic_phone : JVal
  timestamp : JVal
deriving Repr

/-- The record returned by `normalize`. `confidence` is always a string in
the source (`(... || '').toString().toLowerCase()`), hence `String` here. -/
structure NormalizedReply where
  status : JVal
  message : JVal
  confidence : String
  sources : JVal
  meta : NMeta
  error : JVal
  raw : JVal
deriving Repr

/-- `normalize` (src/scripts/script.js:100-113).  `now` is the wall clock
(`new Date().toISOString()`).  The first property access, `data.status`,
throws iff `data` (after array unwrapping) is nullish; thereafter `data` and
`body = data.data || data` are non-nullish, so all remaining accesses are
total and the only other throw points are inside `extractGeminiText`. -/
def normalize (now : String) (data0 : JVal) : Except String NormalizedReply :=
  let data := unwrapData data0
  if nullish data then
    .error "TypeError: cannot read properties of null/undefined (reading status)"
  else
    let status := jsOr (propD data "status") (.str "success")
    let body := bodyOf data
    match messageOf data body with
    | .error e => .error e
    | .ok message =>
      .ok
        { status := status
          message := message
          confidence := jsToLower (jsToString (jsOr (propD body "confidence")
            (jsOr (propD body "confidence_level") (.str ""))))
          sources := jsOr (propD body "sources")
            (jsOr (propD body "refs") (.arr []))
          meta :=
            { clinic_url := propD body "clinic_url"
              clinic_phone := propD body "clinic_phone"
              timestamp := jsOr (propD body "now") (.str now) }
          error := jsOr (propD body "error") .null
          raw := jsOr (propD body "raw") .null }

/-- The six message fields, in resolution order. -/
def sixFields (body : JVal) : List JVal :=
  [propD body "answer", propD body "response", propD body "message",
   propD body "output_text", propD body "text", propD body "content"]

/-- Spec-side twin of the `message` resolution rule, written from the
spec's words (§4.1 step 4) for the refinement claim about resolution order:
take the first non-empty (truthy) field among `body.answer, body.response,
body.message, body.output_text, body.text, body.content`; if still empty
and `body.raw` is present, extract text from the generative-model envelope
of `body.raw`; if still empty and the top-level payload carries a
`candidates` field, apply the same extraction to the payload; the final
fallback is the empty string. -/
def specMessage (payload : JVal) : Except String JVal :=
  let data := unwrapData payload
  let body := bodyOf data
  match ((sixFields body).find? truthy) with
  | some v => .ok v
  | none =>
    match (if truthy (propD body "raw") then
        extractGeminiText (propD body "raw")
      else .ok (.str "")) with
    | .error e => .error e
    | .ok m1 =>
      if truthy m1 then .ok m1
      else
        match (if truthy (propD data "candidates") then
            extractGeminiText data
          else .ok m1) with
        | .error e => .error e
        | .ok m2 => if truthy m2 then .ok m2 else .ok (.str "")

/-- Replace `meta.timestamp` by a fixed value: the one field of
`NormalizedReply` that may depend on the wall clock. -/
def stripTimestamp (r : NormalizedReply) : NormalizedReply :=
  { r with meta := { r.meta with timestamp := .null } }

/-!
## Keyboard / viewport occlusion tracker

Embedding of `writeKb`, `occludedPx` (src/scripts/script.js:405-413) and the
iOS latched strategy (`kbLatchUpdate`, `kbOnFocus` re-sampling,
`kbOnBlur`, the one-shot grace timer; src/scripts/script.js:422-497; the copy
in src/scripts/prosper_pharmacy.js:518-575 is identical up to local-variable
naming).  Pixel quantities and timestamps are modelled over `ℚ` (JS numbers;
the viewport can report fractional heights).  The one-shot `setTimeout` is
modelled by recording its arming time in the state; it fires as soon as a
later event arrives at or past `armTime + CLOSE_GRACE_MS`, or when the
event stream is flushed past that instant with no further samples.
-/

/-- `writeKb` (src/scripts/script.js:405-407): the value written to the
`--kb` CSS custom property is `Math.max(0, Math.round(px || 0))` (`none`
models a missing/`undefined` argument, which `|| 0` turns into `0`). -/
def writeKb (px : Option ℚ) : ℚ := max 0 (((round (px.getD 0) : ℤ)) : ℚ)

/-- `occludedPx` (src/scripts/script.js:410-413): `0` when there is no
`visualViewport`, else `max(0, innerHeight - VV.height - (VV.offsetTop||0))`.
`vv` carries the pair (viewport height, viewport offsetTop). -/
def occludedPx (vv : Option (ℚ × ℚ)) (innerHeight : ℚ) : ℚ :=
  match vv with
  | none => 0
  | some (h, top) => max 0 (innerHeight - h - top)

/-- Tracker state of the iOS latched strategy: `latched`/`lastPx` mirror the
mutable locals of the source; `timerArmedAt` is `some t₀` when the pending
zero-timer (`zeroTimer`) is armed and records the arming instant. -/
structure KbState where
  latched : Bool
  lastPx : ℚ
  timerArmedAt : Option ℚ
deriving Repr

/-- `OPEN_THRESH = 60` (occlusion at or above this latches). -/
def OPEN_THRESH : ℚ := 60
/-- `CLOSE_THRESH = 30` (below this a latched tracker may be closing). -/
def CLOSE_THRESH : ℚ := 30
/-- `CLOSE_GRACE_MS = 350` (grace period of the pending zero-timer). -/
def CLOSE_GRACE_MS : ℚ := 350

/-- JS `x || 0` on a number (identity for every rational; written out to
mirror `writeKb(lastPx || 0)` in the source). -/
def jsOr0 (x : ℚ) : ℚ := if x = 0 then 0 else x

/-- One call of `kbLatchUpdate` (src/scripts/script.js:431-463) on a sample
`occ` taken at time `t`; returns the new state and the value published via
`writeKb`.  Note that the branch for `latched && occ >= CLOSE_THRESH` leaves
`zeroTimer` untouched: only the `occ >= OPEN_THRESH` branch clears it. -/
def kbLatchUpdate (s : KbState) (t occ : ℚ) : KbState × ℚ :=
  if OPEN_THRESH ≤ occ then
    ({ latched := true, lastPx := occ, timerArmedAt := none },
      writeKb (some occ))
  else if s.latched = true ∧ CLOSE_THRESH ≤ occ then
    let last := if 0 < occ then max s.lastPx occ else s.lastPx
    ({ s with lastPx := last }, writeKb (some last))
  else if s.latched = true ∧ occ < CLOSE_THRESH then
    ({ s with timerArmedAt := some (s.timerArmedAt.getD t) },
      writeKb (some (jsOr0 s.lastPx)))
  else
    (s, writeKb (some 0))

/-- The body of the `setTimeout` callback armed by `kbLatchUpdate`:
`latched = false; lastPx = 0; writeKb(0); zeroTimer = null;`. -/
def timerFire (_s : KbState) : KbState × ℚ :=
  (⟨false, 0, none⟩, writeKb (some 0))

/-- `kbOnBlur` (src/scripts/script.js:474-479): clear any pending timer,
unlatch, zero the remembered height, publish 0. -/
def kbOnBlur (_s : KbState) : KbState × ℚ :=
  (⟨false, 0, none⟩, writeKb (some 0))

/-- The pending zero-timer is due at time `t`: it was armed at some `t₀`
with `t₀ + CLOSE_GRACE_MS ≤ t`. -/
def timerDue (s : KbState) (t : ℚ) : Prop :=
  match s.timerArmedAt with
  | some t0 => t0 + CLOSE_GRACE_MS ≤ t
  | none => False

instance (s : KbState) (t : ℚ) : Decidable (timerDue s t) := by
  unfold timerDue; cases s.timerArmedAt <;> infer_instance

/-- Run the timer callback if it is due at time `t` (the event loop runs a
due `setTimeout` callback before a later event). -/
def fireIfDue (s : KbState) (t : ℚ) : KbState × List ℚ :=
  if timerDue s t then (let f := timerFire s; (f.1, [f.2])) else (s, [])

/-- Events driving the latched tracker: an occlusion sample delivered at
time `t` (viewport resize/scroll, focus tick, input, touch-move,
transition-end, orientation settle — all of which call `kbLatchUpdate`),
or a composer blur at time `t`. -/
inductive KbEvent where
  | sample (t occ : ℚ)
  | blur (t : ℚ)

/-- Process one event: first run a due timer callback, then the handler. -/
def kbStep (s : KbState) (e : KbEvent) : KbState × List ℚ :=
  match e with
  | .sample t occ =>
    let p := fireIfDue s t
    let u := kbLatchUpdate p.1 t occ
    (u.1, p.2 ++ [u.2])
  | .blur t =>
    let p := fireIfDue s t
    let b := kbOnBlur p.1
    (b.1, p.2 ++ [b.2])

/-- Process a time-ordered event list, collecting every published value. -/
def runKb (s : KbState) : List KbEvent → KbState × List ℚ
  | [] => (s, [])
  | e :: es =>
    let r := kbStep s e
    let rest := runKb r.1 es
    (rest.1, r.2 ++ rest.2)

/-- Initial tracker state (`latched = false`, `lastPx = 0`, no timer). -/
def kbInit : KbState := ⟨false, 0, none⟩

/-!
## Conversation history (`send`, src/scripts/script.js:744-793)

`history.push({role:'user', content:text}); if (history.length > 16)
history = history.slice(-16);` on each user submission; the request payload
is `history.slice(-8)` taken right afterwards; an accepted reply does
`history.push({role:'assistant', content:n.message});` with no truncation.
-/

/-- A `ConversationTurn` `{role, content}`. -/
structure Turn where
  role : String
  content : String
deriving Repr, DecidableEq

/-- `l.slice(-n)` for a list: the `n` most recent elements. -/
def sliceLast (n : Nat) (l : List Turn) : List Turn :=
  l.drop (l.length - n)

/-- The user-submission append: push, then truncate to the 16 most
recent turns when the list exceeds 16. -/
def appendUser (history : List Turn) (text : String) : List Turn :=
  let h := history ++ [⟨"user", text⟩]
  if h.length > 16 then sliceLast 16 h else h

/-- The accepted-reply append: push only — `send` performs no truncation
after the assistant push. -/
def appendAssistant (history : List Turn) (msg : String) : List Turn :=
  history ++ [⟨"assistant", msg⟩]

/-- The `history` field of the request payload: `history.slice(-8)`,
computed immediately after the user append. -/
def payloadHistory (history : List Turn) : List Turn := sliceLast 8 history

/-- One full exchange: user append (as in `send`), then assistant append. -/
def exchange (history : List Turn) (u a : String) : List Turn :=
  appendAssistant (appendUser history u) a

/-- `n` numbered exchanges `u0/a0, u1/a1, ...` starting from `history`. -/
def runExchanges (history : List Turn) : Nat → List Turn
  | 0 => history
  | n + 1 => exchange (runExchanges history n) ("u" ++ toString n)
      ("a" ++ toString n)

/-- The full (untruncated) sequence of turns appended by `n` numbered
exchanges, in order — used to say which turns are "the most recent". -/
def allTurns (n : Nat) : List Turn :=
  (List.range n).flatMap fun i =>
    [⟨"user", "u" ++ toString i⟩, ⟨"assistant", "a" ++ toString i⟩]

/-!
## Transport (`callApi`, src/scripts/script.js:840-856)

In mock mode `callApi` resolves — after a fixed 500 ms `setTimeout`, without
touching the network — with `[{answer: "[MOCK] " + body.message}]`.
Otherwise it performs the POST; the outcome of the awaited
`fetch`/`res.json()` is abstracted by `FetchOutcome`.  The `AbortController`
is aborted only by the `setTimeout(() => ac.abort(), cfg.timeout)` timer, so
an `AbortError` reaching the `catch` means the timeout timer fired; the
`catch` then rewrites its message to cite `Math.round(cfg.timeout/1000)`
seconds and rethrows.  A non-ok response throws
`new Error("Server error " + res.status)`, which the same `catch` rethrows
unchanged (its name is not `AbortError`). -/

/-- A JS `Error`: its `name` and `message`. -/
structure JsError where
  name : String
  message : String
deriving Repr, DecidableEq

/-- Outcome of the awaited `fetch(url, ...)`/`res.json()` pair:
a parsed response with its HTTP status, a rejection because the timeout
timer aborted the request, or any other failure (network error, JSON parse
error) carrying the thrown error. -/
inductive FetchOutcome where
  | response (status : Nat) (body : JVal)
  | timerAbort
  | failure (e : JsError)

/-- `res.ok`: HTTP status in the 200-299 range. -/
def statusOk (status : Nat) : Bool := 200 ≤ status && status ≤ 299

/-- The relevant configuration fields: `{mock, timeout}` (ms). -/
structure Config where
  mock : Bool
  timeout : ℚ
deriving Repr

/-- The message the `catch` block writes into an `AbortError`:
`Request timed out after ${Math.round(cfg.timeout / 1000)}s.` -/
def timeoutMessage (cfg : Config) : String :=
  "Request timed out after " ++ toString (round (cfg.timeout / 1000)) ++ "s."

/-- The mock-mode resolution value: `[{answer: "[MOCK] " + body.message}]`
(template-literal coercion of `body.message`). -/
def mockReply (body : JVal) : JVal :=
  .arr [.obj [("answer", .str ("[MOCK] " ++ jsToString (propD body "message")))]]

/-- The delay before `callApi` resolves in mock mode: the fixed
`setTimeout(..., 500)` of the source; `none` in real mode, where the delay
is network-dependent. -/
def callApiDelayMs (cfg : Config) : Option ℚ :=
  if cfg.mock then some 500 else none

/-- `callApi` (src/scripts/script.js:840-856) as a function of the
configuration, the request body and the network outcome. -/
def callApi (cfg : Config) (body : JVal) (net : FetchOutcome) :
    Except JsError JVal :=
  if cfg.mock then .ok (mockReply body)
  else
    match net with
    | .response status rbody =>
        if statusOk status then .ok rbody
        else .error ⟨"Error", "Server error " ++ toString status⟩
    | .timerAbort => .error ⟨"AbortError", timeoutMessage cfg⟩
    | .failure e =>
        .error (if e.name = "AbortError" then ⟨e.name, timeoutMessage cfg⟩
          else e)

/-!
## Helper lemmas
-/

lemma except_isOk_iff {ε α : Type} (x : Except ε α) :
    x.isOk = true ↔ ∃ v, x = .ok v := by
  cases x <;> simp [Except.isOk, Except.toBool]

/-- `extractGeminiText` only ever succeeds with a string. -/
lemma extractGeminiText_ok_str (o v : JVal)
    (h : extractGeminiText o = .ok v) : ∃ s, v = .str s := by
  simp only [extractGeminiText] at h
  split at h
  · exact ⟨_, (Except.ok.inj h).symm⟩
  · cases h

/-- A falsy string is the empty string. -/
lemma truthy_str_false {s : String} (h : truthy (.str s) = false) :
    JVal.str s = JVal.str "" := by
  simp [truthy] at h
  simp [h]

/-- The `||`-cascade over the six message fields agrees with "first truthy
field, else the empty string". -/
lemma firstSix_cases (body : JVal) :
    (truthy (firstSix body) = true →
      (sixFields body).find? truthy = some (firstSix body))
  ∧ (truthy (firstSix body) = false →
      (sixFields body).find? truthy = none ∧ firstSix body = .str "") := by
  have h0 : truthy (.str "") = false := by simp [truthy]
  cases h1 : truthy (propD body "answer") <;>
  cases h2 : truthy (propD body "response") <;>
  cases h3 : truthy (propD body "message") <;>
  cases h4 : truthy (propD body "output_text") <;>
  cases h5 : truthy (propD body "text") <;>
  cases h6 : truthy (propD body "content") <;>
    simp [firstSix, sixFields, jsOr, List.find?, h0, h1, h2, h3, h4, h5, h6]

/-- The code's `message` computation coincides with the spec-worded
resolution rule. -/
lemma specMessage_eq_messageOf (j : JVal) :
    specMessage j = messageOf (unwrapData j) (bodyOf (unwrapData j)) := by
  simp only [specMessage, messageOf]
  cases hf : truthy (firstSix (bodyOf (unwrapData j)))
  case true =>
    rw [(firstSix_cases _).1 hf]
    simp [hf]
  case false =>
    obtain ⟨hnone, hempty⟩ := (firstSix_cases _).2 hf
    rw [hnone, hempty]
    have h0 : truthy (.str "") = false := by simp [truthy]
    cases hr : truthy (propD (bodyOf (unwrapData j)) "raw")
    case false =>
      cases hc : truthy (propD (unwrapData j) "candidates")
      case false => simp [hr, hc, h0]
      case true =>
        cases he : extractGeminiText (unwrapData j)
        case error e => simp [hr, hc, h0, he]
        case ok m2 =>
          obtain ⟨s2, rfl⟩ := extractGeminiText_ok_str _ _ he
          cases hm2 : truthy (.str s2)
          case false =>
            rw [truthy_str_false hm2] at he ⊢
            simp [hr, hc, h0, he]
          case true => simp [hr, hc, h0, he, hm2]
    case true =>
      cases her : extractGeminiText (propD (bodyOf (unwrapData j)) "raw")
      case error e => simp [hr, her]
      case ok vr =>
        obtain ⟨sr, rfl⟩ := extractGeminiText_ok_str _ _ her
        cases hv : truthy (.str sr)
        case true => simp [hr, her, hv]
        case false =>
          rw [truthy_str_false hv] at her ⊢
          cases hc : truthy (propD (unwrapData j) "candidates")
          case false => simp [hr, her, hc, h0]
          case true =>
            cases he : extractGeminiText (unwrapData j)
            case error e => simp [hr, her, hc, h0, he]
            case ok m2 =>
              obtain ⟨s2, rfl⟩ := extractGeminiText_ok_str _ _ he
              cases hm2 : truthy (.str s2)
              case false =>
                rw [truthy_str_false hm2] at he ⊢
                simp [hr, her, hc, h0, he]
              case true => simp [hr, her, hc, h0, he, hm2]

/-- `messageOf` succeeds whenever both potential `extractGeminiText` calls
would succeed. -/
lemma messageOf_isOk (data body : JVal)
    (h2 : (extractGeminiText (propD body "raw")).isOk = true)
    (h3 : (extractGeminiText data).isOk = true) :
    (messageOf data body).isOk = true := by
  obtain ⟨vr, hr⟩ := (except_isOk_iff _).1 h2
  obtain ⟨vd, hd⟩ := (except_isOk_iff _).1 h3
  unfold messageOf
  by_cases c : (!truthy (firstSix body) && truthy (propD body "raw")) = true
  · rw [if_pos c, hr]
    by_cases c2 : (!truthy vr && truthy (propD data "candidates")) = true
    · simp [c2, hd, Except.isOk, Except.toBool]
    · simp [c2, Except.isOk, Except.toBool]
  · rw [if_neg c]
    by_cases c2 : (!truthy (firstSix body)
        && truthy (propD data "candidates")) = true
    · simp [c2, hd, Except.isOk, Except.toBool]
    · simp [c2, Except.isOk, Except.toBool]

/-!
## The claims
-/

/-- Claim C1, counterexample: start the latched tracker, latch with a
sample of 70, dip to 20 at time 100 (arming the zero-timer), then deliver a
qualifying mid-range sample of 40 (`CLOSE_THRESH ≤ 40 < OPEN_THRESH`) at
time 200, well before the timer would fire at 450.  Contrary to the claim,
the pending zero-timer is still armed (`some 100`, not cancelled), and at
time 450 it does fire, unlatching and publishing 0. -/
theorem pending_timer_survives_midrange_sample :
    (runKb kbInit [.sample 0 70, .sample 100 20, .sample 200 40]).1
      = ⟨true, 70, some 100⟩
  ∧ fireIfDue ⟨true, 70, some 100⟩ 450 = (⟨false, 0, none⟩, [0]) := by
  constructor <;>
  norm_num [runKb, kbStep, kbLatchUpdate, fireIfDue, timerDue, timerFire,
    writeKb, jsOr0, kbInit, OPEN_THRESH, CLOSE_THRESH, CLOSE_GRACE_MS,
    round_eq]

/-- Claim C1 as amended: when the tracker is latched with the zero-timer
armed and a sample with `CLOSE_THRESH ≤ occ < OPEN_THRESH` arrives before
the timer fires, the tracker stays latched and publishes
`max lastPx occ`, but the pending zero-timer is NOT cancelled — it stays
armed at its original arming time; only a sample with
`occ ≥ OPEN_THRESH` cancels the timer. -/
theorem midrange_sample_keeps_latch_and_timer (s : KbState) (t t0 occ : ℚ)
    (hl : s.latched = true) (ha : s.timerArmedAt = some t0)
    (hbefore : t < t0 + CLOSE_GRACE_MS)
    (hlo : CLOSE_THRESH ≤ occ) (hhi : occ < OPEN_THRESH) :
    kbStep s (.sample t occ)
      = ({ s with lastPx := max s.lastPx occ },
          [writeKb (some (max s.lastPx occ))])
  ∧ (∀ (s' : KbState) (t' occ' : ℚ), OPEN_THRESH ≤ occ' →
      (kbStep s' (.sample t' occ')).1.timerArmedAt = none) := by
  constructor
  · have hdue : ¬ timerDue s t := by
      simp only [timerDue, ha]
      linarith
    have hocc : (0:ℚ) < occ :=
      lt_of_lt_of_le (by norm_num [CLOSE_THRESH]) hlo
    simp [kbStep, fireIfDue, hdue, kbLatchUpdate, hl, hlo, hocc,
      not_le.2 hhi]
  · intro s' t' occ' h
    simp [kbStep, kbLatchUpdate, fireIfDue, h]

/-- Witness for the amended C1 theorem at the concrete state reached in the
counterexample (latched at 70, timer armed at time 100), sample 40 at
time 200. -/
theorem midrange_sample_keeps_latch_and_timer_witness :
    kbStep ⟨true, 70, some 100⟩ (.sample 200 40)
      = ({ latched := true, lastPx := max 70 40, timerArmedAt := some 100 },
          [writeKb (some (max 70 40))])
  ∧ (∀ (s' : KbState) (t' occ' : ℚ), OPEN_THRESH ≤ occ' →
      (kbStep s' (.sample t' occ')).1.timerArmedAt = none) :=
  midrange_sample_keeps_latch_and_timer ⟨true, 70, some 100⟩ 200 100 40 rfl
    rfl (by norm_num [CLOSE_GRACE_MS]) (by norm_num [CLOSE_THRESH])
    (by norm_num [OPEN_THRESH])

/-- Claim C2, counterexample: `normalize` is not total on JSON-compatible
payloads — on the payload `null` the very first property access
(`data.status`) throws a TypeError, so no `NormalizedReply` is returned. -/
theorem normalize_throws_on_null :
    normalize "2024-01-01T00:00:00.000Z" .null
      = .error
        "TypeError: cannot read properties of null/undefined (reading status)"
      := rfl

/-- Claim C2 as amended: `normalize` returns a well-formed reply record and
never throws, for every payload such that (i) the payload, after array
unwrapping, is not nullish (`null` itself is the exception), and (ii) both
potential generative-envelope extractions (`body.raw` and the top-level
payload) would succeed, i.e. reach a `parts` value that is falsy or an
array.  Missing or malformed fields otherwise degrade to their defaults. -/
theorem normalize_total_amended (j : JVal) (now : String)
    (h1 : nullish (unwrapData j) = false)
    (h2 : (extractGeminiText (propD (bodyOf (unwrapData j)) "raw")).isOk
        = true)
    (h3 : (extractGeminiText (unwrapData j)).isOk = true) :
    ∃ r, normalize now j = .ok r := by
  have hmsg := messageOf_isOk (unwrapData j) (bodyOf (unwrapData j)) h2 h3
  obtain ⟨m, hm⟩ := (except_isOk_iff _).1 hmsg
  simp only [normalize, h1, Bool.false_eq_true, if_false, hm]
  exact ⟨_, rfl⟩

/-- Witness for the amended C2 theorem at the empty object payload. -/
theorem normalize_total_amended_witness :
    ∃ r, normalize "2024-01-01T00:00:00.000Z" (.obj []) = .ok r :=
  normalize_total_amended (.obj []) "2024-01-01T00:00:00.000Z" rfl rfl rfl

/-- Claim C3, counterexample: after 20 appended turns (10 alternating
user/assistant exchanges) the in-memory list retains 17 turns, not 16 —
the assistant append is not followed by a truncation. -/
theorem twenty_turns_retain_seventeen :
    (runExchanges [] 10).length = 17
  ∧ (runExchanges [] 10).length ≠ 16 := by
  constructor <;> decide

/-- Claim C3 as amended: truncation to the 16 most recent turns happens
only after a *user* append (so the length after a user append is
`min (len+1) 16`); an assistant append just pushes (length `len+1`), so
after 20 alternating appended turns exactly the 17 most recent turns are
retained, and the request payload of the final exchange contains exactly
the 8 most recent turns at send time (right after the user append). -/
theorem history_truncation_amended :
    (∀ (h : List Turn) (text : String),
        (appendUser h text).length = min (h.length + 1) 16)
  ∧ (∀ (h : List Turn) (msg : String),
        (appendAssistant h msg).length = h.length + 1)
  ∧ runExchanges [] 10 = (allTurns 10).drop 3
  ∧ payloadHistory (appendUser (runExchanges [] 9) "u9")
      = (allTurns 9 ++ [(⟨"user", "u9"⟩ : Turn)]).drop 11 := by
  refine ⟨?_, ?_, ?_, ?_⟩
  · intro h text
    simp only [appendUser, sliceLast]
    split_ifs with hc
    · simp at hc ⊢
      omega
    · simp at hc ⊢
      omega
  · intro h msg
    simp [appendAssistant]
  · decide
  · decide

/-- Claim C4: from the unlatched initial state, the sample sequence
`[0, 70, 70, 20, 20, 20]` (the 20s within `GRACE` of each other) publishes
`[0, 70, 70, 70, 70, 70]`; then, once `GRACE` has elapsed after the dip
with no recovery at or above `CLOSE_THRESH`, the timer fires, publishes a
final 0, and the tracker returns to the unlatched state. -/
theorem latched_sequence_publishes_and_zeroes :
    runKb kbInit [.sample 0 0, .sample 100 70, .sample 200 70,
        .sample 300 20, .sample 400 20, .sample 500 20]
      = (⟨true, 70, some 300⟩, [0, 70, 70, 70, 70, 70])
  ∧ fireIfDue ⟨true, 70, some 300⟩ 650 = (⟨false, 0, none⟩, [0]) := by
  constructor <;>
  norm_num [runKb, kbStep, kbLatchUpdate, fireIfDue, timerDue, timerFire,
    writeKb, jsOr0, kbInit, OPEN_THRESH, CLOSE_THRESH, CLOSE_GRACE_MS,
    round_eq]

/-- Claim C5: the `message` field produced by `normalize` follows the
spec's resolution order (`specMessage`): first truthy among the six direct
fields, then extraction from `body.raw`, then extraction from a top-level
`candidates` payload, with empty-string fallback; in particular the
two-part generative envelope yields `"ab"`. -/
theorem message_resolution_order :
    (∀ (j : JVal) (now : String) (r : NormalizedReply),
        normalize now j = .ok r → specMessage j = .ok r.message)
  ∧ (normalize "T" (.obj [("candidates", .arr [.obj [("content",
      .obj [("parts", .arr [.obj [("text", .str "a")],
        .obj [("text", .str "b")]])])]])])).map (·.message)
      = .ok (.str "ab") := by
  constructor
  · intro j now r h
    rw [specMessage_eq_messageOf]
    simp only [normalize] at h
    by_cases hn : nullish (unwrapData j) = true
    · simp [hn] at h
    · simp only [hn, Bool.false_eq_true, if_false] at h
      cases hm : messageOf (unwrapData j) (bodyOf (unwrapData j)) with
      | error e =>
          rw [hm] at h
          dsimp only at h
          cases h
      | ok m =>
          rw [hm] at h
          dsimp only at h
          rw [← Except.ok.inj h]
  · simp [normalize, messageOf, firstSix, extractGeminiText, jsJoinElems,
      jsToString, unwrapData, bodyOf, nullish, propD, optChain, idxD,
      lookupLast, jsOr, truthy, jsTrim, jsToLower, String.join, Except.map]

/-- Witness for C5 at a payload resolved by the first field. -/
theorem message_resolution_order_witness :
    specMessage (.obj [("answer", .str "hi")])
      = .ok (NormalizedReply.message ⟨.str "success", .str "hi", "",
          .arr [], ⟨.undefined, .undefined, .str "T"⟩, .null, .null⟩) :=
  message_resolution_order.1 (.obj [("answer", .str "hi")]) "T" _ (by
    simp [normalize, messageOf, firstSix, unwrapData, bodyOf, nullish,
      propD, lookupLast, jsOr, truthy, jsToLower, jsToString])

/-- Claim C6: transport error classification — a non-success HTTP status
rejects with the server error carrying that status (500 yields
`Server error 500`), a cancellation by the timeout timer rejects with an
abort error whose message states the configured timeout in seconds
(60000 ms yields `60s.`), and any other failure is rethrown with its
underlying name and message. -/
theorem transport_error_classification :
    (∀ (cfg : Config) (body rbody : JVal) (status : Nat),
        cfg.mock = false → statusOk status = false →
        callApi cfg body (.response status rbody)
          = .error ⟨"Error", "Server error " ++ toString status⟩)
  ∧ callApi ⟨false, 60000⟩ (.obj []) (.response 500 .null)
      = .error ⟨"Error", "Server error 500"⟩
  ∧ (∀ (cfg : Config) (body : JVal), cfg.mock = false →
        callApi cfg body .timerAbort
          = .error ⟨"AbortError", timeoutMessage cfg⟩)
  ∧ timeoutMessage ⟨false, 60000⟩ = "Request timed out after 60s."
  ∧ (∀ (cfg : Config) (body : JVal) (e : JsError), cfg.mock = false →
        e.name ≠ "AbortError" →
        callApi cfg body (.failure e) = .error e) := by
  refine ⟨?_, ?_, ?_, ?_, ?_⟩
  · intro cfg body rbody status hm hs
    simp [callApi, hm, hs]
  · simp [callApi, statusOk]
    rfl
  · intro cfg body hm
    simp [callApi, hm]
  · have h60 : round ((60000:ℚ) / 1000) = 60 := by norm_num [round_eq]
    simp only [timeoutMessage, h60]
    rfl
  · intro cfg body e hm hn
    simp [callApi, hm, hn]

/-- Witness for C6: status 404, a timer abort, and a plain network failure
under the default 60 s configuration. -/
theorem transport_error_classification_witness :
    callApi ⟨false, 60000⟩ (.obj []) (.response 404 .null)
      = .error ⟨"Error", "Server error " ++ toString 404⟩
  ∧ callApi ⟨false, 60000⟩ (.obj []) .timerAbort
      = .error ⟨"AbortError", timeoutMessage ⟨false, 60000⟩⟩
  ∧ callApi ⟨false, 60000⟩ (.obj [])
        (.failure ⟨"TypeError", "Failed to fetch"⟩)
      = .error ⟨"TypeError", "Failed to fetch"⟩ :=
  ⟨transport_error_classification.1 ⟨false, 60000⟩ (.obj []) .null 404 rfl
      rfl,
   transport_error_classification.2.2.1 ⟨false, 60000⟩ (.obj []) rfl,
   transport_error_classification.2.2.2.2 ⟨false, 60000⟩ (.obj [])
     ⟨"TypeError", "Failed to fetch"⟩ rfl (by decide)⟩

/-- Claim C7: in mock mode `callApi` resolves — independently of the
network outcome, after the fixed 500 ms delay — with the single-element
sequence `[{answer: "[MOCK] " + body.message}]`; in particular
`{message:"hello"}` yields `[{answer:"[MOCK] hello"}]`. -/
theorem mock_mode_resolution :
    (∀ (cfg : Config) (body : JVal) (net : FetchOutcome), cfg.mock = true →
        callApi cfg body net = .ok (mockReply body)
      ∧ callApiDelayMs cfg = some 500)
  ∧ (∀ net : FetchOutcome,
        callApi ⟨true, 60000⟩ (.obj [("message", .str "hello")]) net
          = .ok (.arr [.obj [("answer", .str "[MOCK] hello")]])) := by
  constructor
  · intro cfg body net hm
    constructor <;> simp [callApi, callApiDelayMs, hm]
  · intro net
    simp [callApi, mockReply, propD, lookupLast, jsToString]

/-- Witness for C7 at the `{message:"hello"}` body. -/
theorem mock_mode_resolution_witness :
    callApi ⟨true, 60000⟩ (.obj [("message", .str "hello")]) .timerAbort
        = .ok (mockReply (.obj [("message", .str "hello")]))
      ∧ callApiDelayMs ⟨true, 60000⟩ = some 500 :=
  mock_mode_resolution.1 ⟨true, 60000⟩ (.obj [("message", .str "hello")])
    .timerAbort rfl

/-- Claim C8: `normalize` is deterministic up to the wall clock — two runs
on the same payload agree on every field except `meta.timestamp`, and when
the backend supplies a (truthy) `now` field the outputs are identical,
timestamp included. -/
theorem normalize_deterministic_up_to_clock (j : JVal) (n1 n2 : String) :
    (normalize n1 j).map stripTimestamp = (normalize n2 j).map stripTimestamp
  ∧ (truthy (propD (bodyOf (unwrapData j)) "now") = true →
      normalize n1 j = normalize n2 j) := by
  constructor
  · simp only [normalize]
    by_cases hn : nullish (unwrapData j) = true
    · simp [hn]
    · simp only [hn, Bool.false_eq_true, if_false]
      cases hm : messageOf (unwrapData j) (bodyOf (unwrapData j)) <;>
        simp [stripTimestamp, Except.map]
  · intro h
    simp only [normalize]
    by_cases hn : nullish (unwrapData j) = true
    · simp [hn]
    · simp only [hn, Bool.false_eq_true, if_false]
      cases hm : messageOf (unwrapData j) (bodyOf (unwrapData j)) <;>
        simp [jsOr, h]

/-- Witness for C8 at a payload carrying a backend timestamp, under two
different wall clocks. -/
theorem normalize_deterministic_up_to_clock_witness :
    normalize "A" (.obj [("now", .str "N")])
      = normalize "B" (.obj [("now", .str "N")]) :=
  (normalize_deterministic_up_to_clock (.obj [("now", .str "N")]) "A" "B").2
    rfl

/-- Claim C9: from every tracker state, composer blur cancels any pending
zero-timer, forces `latched = false` and `lastPx = 0`, and publishes 0. -/
theorem blur_always_unlatches (s : KbState) :
    kbOnBlur s = (⟨false, 0, none⟩, 0) := by
  norm_num [kbOnBlur, writeKb, round_eq]

/-- Claim C10: every value published to the `--kb` CSS custom property is a
non-negative integer — `writeKb` clamps with `max(0, round(px || 0))` for
any (negative, fractional or missing) argument — and the occlusion
computation itself already clamps at 0. -/
theorem published_px_nonneg_integral :
    (∀ px : Option ℚ, 0 ≤ writeKb px ∧ (writeKb px).den = 1)
  ∧ (∀ (vv : Option (ℚ × ℚ)) (innerHeight : ℚ),
      0 ≤ occludedPx vv innerHeight) := by
  constructor
  · intro px
    constructor
    · exact le_max_left 0 _
    · unfold writeKb
      rw [show ((0:ℚ)) = (((0:ℤ)):ℚ) by norm_num, ← Int.cast_max]
      exact Rat.den_intCast _
  · intro vv ih
    cases vv with
    | none => simp [occludedPx]
    | some p =>
        obtain ⟨h, top⟩ := p
        exact le_max_left 0 _

end Widget
